import Mathlib

/-!
Shallow embedding of the rules engine of `src/game.py` (a turn-based RPG):
entity damage, player progression, equipment, quests, combat flee flow,
and the save/load codec.  Python ints are modelled by `Int` (with Python's
floor division written `Int.fdiv`), Python lists by `List`, dicts by
association lists or `Option`-valued fields, and `None` by `Option.none`.
Random draws (`random.random()`) are passed in explicitly as rationals in
`[0, 1)`; `random.choice` is passed in as an index.
-/

/-! ## Items, spells, quests (game.py lines 146-212) -/

/-- Python's subclass hierarchy `Item` / `Potion` / `Weapon` / `Armor`
flattened into one variant field.  `basic` is a bare `Item`. -/
inductive ItemKind where
  | basic : ItemKind
  | potion (effect : String) (amount : Int) : ItemKind
  | weapon (attack_bonus : Int) : ItemKind
  | armor (defense_bonus : Int) : ItemKind
deriving DecidableEq

structure Item where
  name : String
  description : String
  kind : ItemKind
deriving DecidableEq

/-- Attribute access `self.weapon.attack_bonus`; only ever reached on
`Weapon` instances in the source (other kinds would be an attribute error,
which no claim exercises). -/
def Item.attack_bonus (it : Item) : Int :=
  match it.kind with
  | .weapon b => b
  | _ => 0

/-- Attribute access `self.armor.defense_bonus` (see `Item.attack_bonus`). -/
def Item.defense_bonus (it : Item) : Int :=
  match it.kind with
  | .armor b => b
  | _ => 0

def Item.isPotion (it : Item) : Bool :=
  match it.kind with
  | .potion _ _ => true
  | _ => false

structure Spell where
  name : String
  description : String
  mana_cost : Int
  damage : Int
deriving DecidableEq

/-- One quest stage, a Python dict with a `type`-dependent key set:
`kill_enemy` stages carry an `enemy` key, `find_item` stages an `item` key
(absence of a key is `none`). -/
structure Stage where
  type : String
  enemy : Option String := none
  item : Option String := none
  location : String
  target_description : String
deriving DecidableEq

structure Quest where
  name : String
  description : String
  stages : List Stage
  current_stage : Nat
  reward : String
  completed : Bool
deriving DecidableEq

/-- Source `Quest.__init__` (current_stage 0, not completed). -/
def Quest.init (name description : String) (stages : List Stage) (reward : String) : Quest :=
  { name := name
    description := description
    stages := stages
    current_stage := 0
    reward := reward
    completed := false }

/-- Source `Quest.advance_stage` (game.py 196-202): step to the next stage, or mark
completed at the last stage; returns whether the quest just completed. -/
def Quest.advance_stage (q : Quest) : Quest × Bool :=
  if q.current_stage < q.stages.length - 1 then
    ({ q with current_stage := q.current_stage + 1 }, false)
  else
    ({ q with completed := true }, true)

/-! ## Entities (game.py lines 9-33) -/

structure Entity where
  name : String
  max_hp : Int
  hp : Int
  max_stamina : Int
  stamina : Int
  attack : Int
  defense : Int
  is_defending : Bool
deriving DecidableEq

/-- Source `Entity.__init__`. -/
def Entity.init (name : String) (hp stamina attack defense : Int) : Entity :=
  { name := name
    max_hp := hp
    hp := hp
    max_stamina := stamina
    stamina := stamina
    attack := attack
    defense := defense
    is_defending := false }

/-- The body of `Entity.take_damage` (game.py 24-33), shared by `Player`
through inheritance: given current hp/defense/defending flag and the raw
amount, returns (new hp, actual damage dealt); the defending flag always
ends up `false`.  Python's `//` is floor division, `Int.fdiv`. -/
def take_damage_calc (hp defense : Int) (is_defending : Bool) (damage : Int) : Int × Int :=
  let damage := if is_defending then max 0 (Int.fdiv damage 2) else damage
  let actual_damage := max 0 (damage - defense)
  let hp := hp - actual_damage
  let hp := if hp < 0 then 0 else hp
  (hp, actual_damage)

/-- Source `Entity.take_damage`: returns the updated entity and the damage dealt. -/
def Entity.take_damage (e : Entity) (damage : Int) : Entity × Int :=
  let (hp, actual) := take_damage_calc e.hp e.defense e.is_defending damage
  ({ e with hp := hp, is_defending := false }, actual)

def Entity.is_alive (e : Entity) : Bool := e.hp > 0

/-! ## Player (game.py lines 35-137) -/

structure Player where
  name : String
  max_hp : Int
  hp : Int
  max_stamina : Int
  stamina : Int
  attack : Int
  defense : Int
  is_defending : Bool
  xp : Int
  level : Int
  inventory : List Item
  weapon : Option Item
  armor : Option Item
  location : String
  quests : List (String × Quest)
  max_mana : Int
  mana : Int
  spells : List Spell
deriving DecidableEq

/-- Source `Player.__init__` (game.py 37-48), including the inherited
`Entity.__init__` fields. -/
def Player.init (name : String) (hp stamina attack defense : Int) : Player :=
  { name := name
    max_hp := hp
    hp := hp
    max_stamina := stamina
    stamina := stamina
    attack := attack
    defense := defense
    is_defending := false
    xp := 0
    level := 1
    inventory := []
    weapon := none
    armor := none
    location := "town"
    quests := []
    max_mana := 30
    mana := 30
    spells := [] }

/-- Source `Player.take_damage`, inherited from `Entity` (same body). -/
def Player.take_damage (p : Player) (damage : Int) : Player × Int :=
  let (hp, actual) := take_damage_calc p.hp p.defense p.is_defending damage
  ({ p with hp := hp, is_defending := false }, actual)

def Player.is_alive (p : Player) : Bool := p.hp > 0

def Player.add_item (p : Player) (item : Item) : Player :=
  { p with inventory := p.inventory ++ [item] }

/-- Source `list.remove`: drop the first occurrence. -/
def Player.remove_item (p : Player) (item : Item) : Player :=
  { p with inventory := p.inventory.erase item }

/-- Source `Player.equip_item` (game.py 56-67): swap the matching slot, removing the
previous item's bonus and adding the new one's; non-equipment is a no-op.
The inventory is untouched. -/
def Player.equip_item (p : Player) (item : Item) : Player :=
  match item.kind with
  | .weapon b =>
      let p := match p.weapon with
        | some w => { p with attack := p.attack - w.attack_bonus }
        | none => p
      { p with weapon := some item, attack := p.attack + b }
  | .armor b =>
      let p := match p.armor with
        | some a => { p with defense := p.defense - a.defense_bonus }
        | none => p
      { p with armor := some item, defense := p.defense + b }
  | _ => p

/-- Source `Player.level_up` (game.py 74-85). -/
def Player.level_up (p : Player) : Player :=
  { p with
    level := p.level + 1
    xp := 0
    max_hp := p.max_hp + 20
    hp := p.max_hp + 20
    max_stamina := p.max_stamina + 10
    stamina := p.max_stamina + 10
    max_mana := p.max_mana + 10
    mana := p.max_mana + 10
    attack := p.attack + 5
    defense := p.defense + 2 }

/-- Source `Player.gain_xp` (game.py 69-72): add xp, then a single (unlooped)
threshold check. -/
def Player.gain_xp (p : Player) (amount : Int) : Player :=
  let p := { p with xp := p.xp + amount }
  if p.xp ≥ p.level * 100 then p.level_up else p

/-! ## Static catalogs (game.py lines 217-334) -/

/-- Source `create_item_from_name` (game.py 325-329): instantiate a catalog item by
name, `none` for unknown names. -/
def create_item_from_name (name : String) : Option Item :=
  if name = "Health Potion" then
    some ⟨name, "Restores 50 HP.", .potion "heal" 50⟩
  else if name = "Stamina Potion" then
    some ⟨name, "Restores 40 Stamina.", .potion "stamina" 40⟩
  else if name = "Iron Sword" then
    some ⟨name, "A basic sword.", .weapon 10⟩
  else if name = "Greatsword" then
    some ⟨name, "A heavy two-handed sword.", .weapon 18⟩
  else if name = "Leather Armor" then
    some ⟨name, "Simple leather armor.", .armor 5⟩
  else if name = "Steel Armor" then
    some ⟨name, "Sturdy steel plate armor.", .armor 12⟩
  else if name = "Amulet of the Forest" then
    some ⟨name, "A quest item.", .basic⟩
  else
    none

/-- Source `create_spell_from_name` (game.py 331-334). -/
def create_spell_from_name (name : String) : Option Spell :=
  if name = "Fireball" then
    some ⟨name, "Hurls a ball of fire.", 15, 30⟩
  else if name = "Heal" then
    some ⟨name, "A minor healing spell.", 20, -40⟩
  else
    none

structure Enemy where
  name : String
  max_hp : Int
  hp : Int
  max_stamina : Int
  stamina : Int
  attack : Int
  defense : Int
  is_defending : Bool
  xp_reward : Int
deriving DecidableEq

/-- Source `Enemy.is_alive`, inherited from `Entity`. -/
def Enemy.is_alive (e : Enemy) : Bool := e.hp > 0

/-- Source `Enemy.take_damage`, inherited from `Entity` (same body). -/
def Enemy.take_damage (e : Enemy) (damage : Int) : Enemy × Int :=
  let (hp, actual) := take_damage_calc e.hp e.defense e.is_defending damage
  ({ e with hp := hp, is_defending := false }, actual)

/-- Source `Enemy.__init__` (game.py 140-144), including the inherited fields. -/
def Enemy.init (name : String) (hp stamina attack defense xp_reward : Int) : Enemy :=
  { name := name
    max_hp := hp
    hp := hp
    max_stamina := stamina
    stamina := stamina
    attack := attack
    defense := defense
    is_defending := false
    xp_reward := xp_reward }

/-- The `enemies` template table (game.py 266-275); an unknown name is a
key error in Python, `none` here. -/
def enemy_template (name : String) : Option Enemy :=
  if name = "Goblin" then some (Enemy.init name 30 20 10 5 25)
  else if name = "Wolf" then some (Enemy.init name 40 30 15 3 35)
  else if name = "Banshee" then some (Enemy.init name 50 60 22 6 70)
  else if name = "Troll" then some (Enemy.init name 80 50 25 10 100)
  else if name = "Giant Spider" then some (Enemy.init name 60 40 20 8 80)
  else if name = "Stone Golem" then some (Enemy.init name 100 30 20 18 120)
  else if name = "Cursed Knight" then some (Enemy.init name 90 70 30 15 150)
  else if name = "Dragon" then some (Enemy.init name 250 100 40 20 500)
  else none

/-- The `enemies` rosters of the `world` table (game.py 217-262): the list
under the optional `"enemies"` key of each location, `[]` when the key is
absent (town) or the location is unknown. -/
def world_enemies (location : String) : List String :=
  if location = "forest" then ["Goblin", "Wolf"]
  else if location = "swamp" then ["Banshee", "Giant Spider"]
  else if location = "cave" then ["Troll", "Stone Golem"]
  else if location = "mountain_pass" then ["Wolf", "Stone Golem"]
  else if location = "castle_ruins" then ["Cursed Knight", "Troll"]
  else if location = "boss_room" then ["Dragon"]
  else []

/-! ## Persistence codec (game.py lines 87-137, 394-409) -/

structure QuestDoc where
  name : String
  description : String
  stages : List Stage
  current_stage : Nat
  reward : String
  completed : Bool
deriving DecidableEq

/-- Source `Quest.to_dict` (game.py 204-205). -/
def Quest.to_dict (q : Quest) : QuestDoc :=
  { name := q.name
    description := q.description
    stages := q.stages
    current_stage := q.current_stage
    reward := q.reward
    completed := q.completed }

/-- Source `Quest.from_dict` (game.py 207-212). -/
def Quest.from_dict (d : QuestDoc) : Quest :=
  { name := d.name
    description := d.description
    stages := d.stages
    current_stage := d.current_stage
    reward := d.reward
    completed := d.completed }

/-- The save document written by `Player.to_dict` (game.py 87-100): every
key that function emits. -/
structure SaveDoc where
  name : String
  hp : Int
  max_hp : Int
  stamina : Int
  max_stamina : Int
  mana : Int
  max_mana : Int
  attack : Int
  defense : Int
  xp : Int
  level : Int
  location : String
  inventory : List String
  weapon : Option String
  armor : Option String
  quests : List (String × QuestDoc)
  spells : List String
deriving DecidableEq

/-- Source `Player.to_dict` (game.py 87-100). -/
def Player.to_dict (p : Player) : SaveDoc :=
  { name := p.name
    hp := p.hp
    max_hp := p.max_hp
    stamina := p.stamina
    max_stamina := p.max_stamina
    mana := p.mana
    max_mana := p.max_mana
    attack := p.attack
    defense := p.defense
    xp := p.xp
    level := p.level
    location := p.location
    inventory := p.inventory.map Item.name
    weapon := p.weapon.map Item.name
    armor := p.armor.map Item.name
    quests := p.quests.map (fun kv => (kv.1, kv.2.to_dict))
    spells := p.spells.map Spell.name }

/-- Python truthiness of `data['weapon']` / `data['armor']`: `None` and the
empty string are falsy. -/
def truthyName : Option String → Bool
  | none => false
  | some s => s ≠ ""

/-- Source `Player.from_dict` (game.py 102-137): rebuild from a (complete) save
document.  Base attack/defense are recomputed from the stored level, the
inventory is recreated from the catalog by name (unknown names dropped),
and weapon/armor are re-equipped from the first inventory item whose name
matches.  The source appends `create_spell_from_name(...)` results without
a `None` check (an unknown spell name would store a null); that path is
modelled by dropping unknown names, and never arises for catalog names. -/
def Player.from_dict (data : SaveDoc) : Player :=
  let player := Player.init data.name data.max_hp data.max_stamina 0 0
  let player := { player with
    hp := data.hp
    stamina := data.stamina
    mana := data.mana
    max_mana := data.max_mana
    xp := data.xp
    level := data.level
    location := data.location }
  let player := { player with
    attack := 10 + player.level * 5
    defense := 3 + player.level * 2 }
  let player := { player with
    inventory := data.inventory.filterMap create_item_from_name }
  let player :=
    if truthyName data.weapon then
      match player.inventory.find? (fun it => it.name == data.weapon.getD "") with
      | some weapon_to_equip => player.equip_item weapon_to_equip
      | none => player
    else player
  let player :=
    if truthyName data.armor then
      match player.inventory.find? (fun it => it.name == data.armor.getD "") with
      | some armor_to_equip => player.equip_item armor_to_equip
      | none => player
    else player
  let player := { player with
    spells := data.spells.filterMap create_spell_from_name }
  let player := { player with
    quests := data.quests.map (fun kv => (kv.1, Quest.from_dict kv.2)) }
  player

/-! ## Game session state and combat flow (game.py lines 338-724) -/

/-- The mutable game-session state the claims touch: the player and the
current enemy (`None` outside combat). -/
structure GameState where
  player : Player
  current_enemy : Option Enemy
deriving DecidableEq

/-- Source `Game.new_game` (game.py 385-392): fixed starting loadout.  Each
`create_item_from_name` / `create_spell_from_name` call is on a catalog
name and so always succeeds; the `match` mirrors that (an unknown name
would make `add_item` append a null in Python — never reached). -/
def new_game : Player :=
  let player := Player.init "Hero" 100 50 15 5
  let player := match create_item_from_name "Health Potion" with
    | some it => player.add_item it
    | none => player
  let player := match create_item_from_name "Iron Sword" with
    | some it => player.equip_item it
    | none => player
  let player := match create_item_from_name "Leather Armor" with
    | some it => player.equip_item it
    | none => player
  let player := match create_spell_from_name "Heal" with
    | some s => { player with spells := player.spells ++ [s] }
    | none => player
  player

/-- Source `Game.start_combat` (game.py 561-565): instantiate a fresh enemy from
its template (roster names are always in the template table). -/
def start_combat (g : GameState) (enemy_name : String) : GameState :=
  { g with current_enemy := enemy_template enemy_name }

/-- Source `Game.show_location` (game.py 411-420), state effects only (logging and
buttons are presentation): with probability 0.6 a location that has an
enemy roster starts combat with a uniformly chosen roster entry.  The
draw of `random.random()` is `encounter_roll`; `random.choice` is given
as `pick` (reduced mod the roster length). -/
def show_location (g : GameState) (encounter_roll : ℚ) (pick : Nat) : GameState :=
  let roster := world_enemies g.player.location
  if roster ≠ [] ∧ encounter_roll < 3/5 then
    match roster.get? (pick % roster.length) with
    | some enemy_name => start_combat g enemy_name
    | none => g
  else g

/-- Source `Game.enemy_turn` (game.py 674-678), state effects only: the current
enemy hits the player (a dead player then triggers game over; the state
fields themselves change only via `take_damage`). -/
def enemy_turn (g : GameState) : GameState :=
  match g.current_enemy with
  | some e => { g with player := (g.player.take_damage e.attack).1 }
  | none => g

/-- Source `Game.flee` (game.py 665-672): `flee_roll` is the `random.random()`
draw (success iff < 0.5); on success the enemy is discarded and
`show_location` re-runs with its own draws; on failure the enemy takes a
turn.  The second component reports whether the enemy turn ran. -/
def flee (g : GameState) (flee_roll encounter_roll : ℚ) (pick : Nat) : GameState × Bool :=
  if flee_roll < 1/2 then
    (show_location { g with current_enemy := none } encounter_roll pick, false)
  else
    (enemy_turn g, true)

/-- What a combat sub-action menu call produces besides the state (which it
never changes): whether the player's turn ended, the lines logged, and the
button labels offered in the selection window. -/
structure SubactionResult where
  turn_ended : Bool
  log : List String
  offered : List String
deriving DecidableEq

/-- Source `Game.show_spell_selection` (game.py 607-614): opens a window with one
button per known spell and returns `False` (turn not ended).  Note there is
no emptiness check and nothing is logged. -/
def show_spell_selection (p : Player) : SubactionResult :=
  { turn_ended := false
    log := []
    offered := p.spells.map (fun s => s.name ++ " (" ++ toString s.mana_cost ++ " MP)") }

/-- Source `Game.show_item_selection` (game.py 636-648): with no potions in the
inventory, log a notice and return `False`; otherwise open a window with
one button per potion and return `False`. -/
def show_item_selection (p : Player) : SubactionResult :=
  let potions := p.inventory.filter Item.isPotion
  if potions = [] then
    { turn_ended := false, log := ["You have no potions to use."], offered := [] }
  else
    { turn_ended := false, log := [], offered := potions.map Item.name }

/-- The `Magic` / `Use Item` branches of `Game.perform_action`
(game.py 575-595): the menu call's `turn_ended` result decides whether the
enemy acts.  Both menus return `False`, so the state is returned
unchanged; the guard is kept as written. -/
def perform_subaction_menu (g : GameState) (r : SubactionResult) : GameState :=
  if r.turn_ended && (match g.current_enemy with
      | some e => e.is_alive
      | none => false) then
    enemy_turn g
  else g

/-- The equipment-slot cleanup plus removal of `drop_action`
(game.py 513-525): unequip the dropped item from whichever slot holds it
(subtracting its bonus) and erase it from the inventory.  Python compares
the slot by object identity; equality on the flattened record coincides
with it at every state the claims use. -/
def drop_action (p : Player) (item : Item) : Player :=
  let p := if p.weapon = some item then
      { p with attack := p.attack - item.attack_bonus, weapon := none }
    else p
  let p := if p.armor = some item then
      { p with defense := p.defense - item.defense_bonus, armor := none }
    else p
  p.remove_item item

/-! ## Quest engine (game.py lines 687-701) -/

/-- The per-quest body of `Game.check_quest_progress` (game.py 687-701):
a completed quest is skipped; otherwise the current stage is read
(`stages[current_stage]`, an index error when out of range — modelled as a
no-op, unreachable under the stage invariant) and matched against the
defeated enemy name or the inventory, advancing on a match. -/
def quest_progress_step (inventory : List Item) (defeated_enemy : Option String)
    (q : Quest) : Quest :=
  if q.completed then q
  else
    match q.stages.get? q.current_stage with
    | none => q
    | some stage =>
        let progress :=
          (stage.type == "kill_enemy" &&
            (match stage.enemy, defeated_enemy with
             | some e, some d => e == d
             | _, _ => false)) ||
          (stage.type == "find_item" &&
            (match stage.item with
             | some i => inventory.any (fun it => it.name == i)
             | none => false))
        if progress then (q.advance_stage).1 else q

/-- The well-formedness the spec asserts of every quest: `current_stage` is
a valid index, and a completed quest sits at the last valid index. -/
def QuestWF (q : Quest) : Prop :=
  q.current_stage < q.stages.length ∧
  (q.completed = true → q.current_stage = q.stages.length - 1)

/-- The "Slay the Dragon" quest template of the `npcs` table
(game.py 298-306): a two-stage quest, `find_item` then `kill_enemy`. -/
def slay_the_dragon : Quest :=
  Quest.init "Slay the Dragon" "Help the Old Man and save the town."
    [ { type := "find_item"
        item := some "Amulet of the Forest"
        location := "forest"
        target_description := "Find the Old Man's amulet." }
    , { type := "kill_enemy"
        enemy := some "Dragon"
        location := "boss_room"
        target_description := "Slay the Dragon." } ]
    "You saved the town! The Old Man gives you a Greatsword."

/-! ## Loading a save (game.py lines 102-137, 401-409) -/

/-- A save document as read back from disk: any subset of the keys may be
present (a JSON file is not guaranteed to carry them all). -/
structure PartialSaveDoc where
  name : Option String := none
  hp : Option Int := none
  max_hp : Option Int := none
  stamina : Option Int := none
  max_stamina : Option Int := none
  mana : Option Int := none
  max_mana : Option Int := none
  attack : Option Int := none
  defense : Option Int := none
  xp : Option Int := none
  level : Option Int := none
  location : Option String := none
  inventory : Option (List String) := none
  weapon : Option (Option String) := none
  armor : Option (Option String) := none
  quests : Option (List (String × QuestDoc)) := none
  spells : Option (List String) := none

/-- The key lookups `Player.from_dict` performs on the raw document:
`none` exactly when some required key is missing (Python raises `KeyError`
there).  The stored `attack`/`defense` keys are never read — they are
recomputed — so they are not required. -/
def PartialSaveDoc.require (d : PartialSaveDoc) : Option SaveDoc := do
  let name ← d.name
  let hp ← d.hp
  let max_hp ← d.max_hp
  let stamina ← d.stamina
  let max_stamina ← d.max_stamina
  let mana ← d.mana
  let max_mana ← d.max_mana
  let xp ← d.xp
  let level ← d.level
  let location ← d.location
  let inventory ← d.inventory
  let weapon ← d.weapon
  let armor ← d.armor
  let quests ← d.quests
  let spells ← d.spells
  pure
    { name := name
      hp := hp
      max_hp := max_hp
      stamina := stamina
      max_stamina := max_stamina
      mana := mana
      max_mana := max_mana
      attack := 0
      defense := 0
      xp := xp
      level := level
      location := location
      inventory := inventory
      weapon := weapon
      armor := armor
      quests := quests
      spells := spells }

/-- The observable outcome of `Game.load_game` (game.py 401-409). -/
inductive LoadResult where
  | loaded (p : Player)
  | noSaveFile
  | uncaughtKeyError

/-- Source `Game.load_game`: a missing save file logs "No save file found." and
leaves the menu as-is; an existing file is parsed and handed to
`Player.from_dict` with no exception handler, so a document missing a
required key raises `KeyError` out of the handler (no fallback runs). -/
def load_game (save_file : Option PartialSaveDoc) : LoadResult :=
  match save_file with
  | none => .noSaveFile
  | some doc =>
      match doc.require with
      | some data => .loaded (Player.from_dict data)
      | none => .uncaughtKeyError

/-! ## Concrete states and helper notions used by the claims -/

def Item.isWeapon (it : Item) : Bool :=
  match it.kind with
  | .weapon _ => true
  | _ => false

def Item.isArmor (it : Item) : Bool :=
  match it.kind with
  | .armor _ => true
  | _ => false

/-- The attack bonus currently granted by the equipped weapon (0 if none):
the quantity `equip_item` subtracts before applying a new weapon. -/
def equipped_weapon_bonus (p : Player) : Int :=
  match p.weapon with
  | some w => w.attack_bonus
  | none => 0

/-- The defense bonus currently granted by the equipped armor (0 if none). -/
def equipped_armor_bonus (p : Player) : Int :=
  match p.armor with
  | some a => a.defense_bonus
  | none => 0

instance (q : Quest) : Decidable (QuestWF q) := by
  unfold QuestWF
  infer_instance

/-- The "Greatsword" catalog entry (see `create_item_from_name`). -/
def greatsword_item : Item := ⟨"Greatsword", "A heavy two-handed sword.", .weapon 18⟩

/-- The "Steel Armor" catalog entry (see `create_item_from_name`). -/
def steel_armor_item : Item := ⟨"Steel Armor", "Sturdy steel plate armor.", .armor 12⟩

/-- A combat under way in the Whispering Forest: a fresh goblin fought by a
new-game player who walked there. -/
def forest_combat_state : GameState :=
  { player := { new_game with location := "forest" }
    current_enemy := enemy_template "Goblin" }

/-- A player who knows no spells (fresh start stripped of the Heal spell). -/
def no_spell_player : Player := { new_game with spells := [] }

/-- A player whose inventory holds no potions. -/
def no_potion_player : Player := { new_game with inventory := [] }

/-- A save document with every required key except `hp`. -/
def doc_missing_hp : PartialSaveDoc :=
  { name := some "Hero"
    max_hp := some 100
    stamina := some 50
    max_stamina := some 50
    mana := some 30
    max_mana := some 30
    attack := some 25
    defense := some 10
    xp := some 0
    level := some 1
    location := some "town"
    inventory := some ["Health Potion"]
    weapon := some (some "Iron Sword")
    armor := some (some "Leather Armor")
    quests := some []
    spells := some ["Heal"] }

/-- A round-trip-safe player: the new-game state with copies of its equipped
Iron Sword and Leather Armor also present in the inventory. -/
def wf_player_example : Player :=
  let p := new_game
  let p := match create_item_from_name "Iron Sword" with
    | some it => p.add_item it
    | none => p
  match create_item_from_name "Leather Armor" with
  | some it => p.add_item it
  | none => p

/-! ## Helper lemmas -/

theorem equip_weapon_attack (p : Player) (w : Item) (b : Int) (hk : w.kind = .weapon b) :
    (p.equip_item w).attack = p.attack - equipped_weapon_bonus p + b := by
  cases hpw : p.weapon <;>
    simp [Player.equip_item, hk, hpw, equipped_weapon_bonus]

theorem equip_weapon_weapon (p : Player) (w : Item) (b : Int) (hk : w.kind = .weapon b) :
    (p.equip_item w).weapon = some w := by
  cases hpw : p.weapon <;> simp [Player.equip_item, hk, hpw]

theorem equip_weapon_armor (p : Player) (w : Item) (b : Int) (hk : w.kind = .weapon b) :
    (p.equip_item w).armor = p.armor := by
  cases hpw : p.weapon <;> simp [Player.equip_item, hk, hpw]

theorem equip_weapon_defense (p : Player) (w : Item) (b : Int) (hk : w.kind = .weapon b) :
    (p.equip_item w).defense = p.defense := by
  cases hpw : p.weapon <;> simp [Player.equip_item, hk, hpw]

theorem equip_armor_defense (p : Player) (a : Item) (b : Int) (hk : a.kind = .armor b) :
    (p.equip_item a).defense = p.defense - equipped_armor_bonus p + b := by
  cases hpa : p.armor <;>
    simp [Player.equip_item, hk, hpa, equipped_armor_bonus]

theorem equip_armor_armor (p : Player) (a : Item) (b : Int) (hk : a.kind = .armor b) :
    (p.equip_item a).armor = some a := by
  cases hpa : p.armor <;> simp [Player.equip_item, hk, hpa]

theorem equip_armor_weapon (p : Player) (a : Item) (b : Int) (hk : a.kind = .armor b) :
    (p.equip_item a).weapon = p.weapon := by
  cases hpa : p.armor <;> simp [Player.equip_item, hk, hpa]

theorem equip_armor_attack (p : Player) (a : Item) (b : Int) (hk : a.kind = .armor b) :
    (p.equip_item a).attack = p.attack := by
  cases hpa : p.armor <;> simp [Player.equip_item, hk, hpa]

theorem equip_inventory (p : Player) (it : Item) :
    (p.equip_item it).inventory = p.inventory := by
  cases hk : it.kind <;> cases hpw : p.weapon <;> cases hpa : p.armor <;>
    simp [Player.equip_item, hk, hpw, hpa]

theorem equip_item_hp (p : Player) (it : Item) : (p.equip_item it).hp = p.hp := by
  cases hk : it.kind <;> cases hpw : p.weapon <;> cases hpa : p.armor <;>
    simp [Player.equip_item, hk, hpw, hpa]

theorem equip_item_max_hp (p : Player) (it : Item) : (p.equip_item it).max_hp = p.max_hp := by
  cases hk : it.kind <;> cases hpw : p.weapon <;> cases hpa : p.armor <;>
    simp [Player.equip_item, hk, hpw, hpa]

theorem equip_item_stamina (p : Player) (it : Item) : (p.equip_item it).stamina = p.stamina := by
  cases hk : it.kind <;> cases hpw : p.weapon <;> cases hpa : p.armor <;>
    simp [Player.equip_item, hk, hpw, hpa]

theorem equip_item_max_stamina (p : Player) (it : Item) :
    (p.equip_item it).max_stamina = p.max_stamina := by
  cases hk : it.kind <;> cases hpw : p.weapon <;> cases hpa : p.armor <;>
    simp [Player.equip_item, hk, hpw, hpa]

theorem equip_item_mana (p : Player) (it : Item) : (p.equip_item it).mana = p.mana := by
  cases hk : it.kind <;> cases hpw : p.weapon <;> cases hpa : p.armor <;>
    simp [Player.equip_item, hk, hpw, hpa]

theorem equip_item_max_mana (p : Player) (it : Item) : (p.equip_item it).max_mana = p.max_mana := by
  cases hk : it.kind <;> cases hpw : p.weapon <;> cases hpa : p.armor <;>
    simp [Player.equip_item, hk, hpw, hpa]

theorem equip_item_xp (p : Player) (it : Item) : (p.equip_item it).xp = p.xp := by
  cases hk : it.kind <;> cases hpw : p.weapon <;> cases hpa : p.armor <;>
    simp [Player.equip_item, hk, hpw, hpa]

theorem equip_item_level (p : Player) (it : Item) : (p.equip_item it).level = p.level := by
  cases hk : it.kind <;> cases hpw : p.weapon <;> cases hpa : p.armor <;>
    simp [Player.equip_item, hk, hpw, hpa]

theorem equip_item_location (p : Player) (it : Item) : (p.equip_item it).location = p.location := by
  cases hk : it.kind <;> cases hpw : p.weapon <;> cases hpa : p.armor <;>
    simp [Player.equip_item, hk, hpw, hpa]

theorem drop_action_attack (p : Player) (it : Item) :
    (drop_action p it).attack =
      if p.weapon = some it then p.attack - it.attack_bonus else p.attack := by
  simp only [drop_action, Player.remove_item]
  split_ifs <;> simp_all

theorem drop_action_weapon (p : Player) (it : Item) :
    (drop_action p it).weapon = if p.weapon = some it then none else p.weapon := by
  simp only [drop_action, Player.remove_item]
  split_ifs <;> simp_all

theorem drop_action_defense (p : Player) (it : Item) :
    (drop_action p it).defense =
      if p.armor = some it then p.defense - it.defense_bonus else p.defense := by
  simp only [drop_action, Player.remove_item]
  split_ifs <;> simp_all

theorem drop_action_armor (p : Player) (it : Item) :
    (drop_action p it).armor = if p.armor = some it then none else p.armor := by
  simp only [drop_action, Player.remove_item]
  split_ifs <;> simp_all

theorem filterMap_catalog_roundtrip (l : List Item)
    (h : ∀ it ∈ l, create_item_from_name it.name = some it) :
    (l.map Item.name).filterMap create_item_from_name = l := by
  induction l with
  | nil => rfl
  | cons x xs ih =>
      simp only [List.map_cons, List.filterMap_cons, h x (List.mem_cons_self x xs)]
      rw [ih (fun it hit => h it (List.mem_cons_of_mem x hit))]

theorem find_catalog_by_name (l : List Item) (w : Item)
    (hall : ∀ it ∈ l, create_item_from_name it.name = some it)
    (hw : create_item_from_name w.name = some w)
    (hmem : w.name ∈ l.map Item.name) :
    l.find? (fun it => it.name == w.name) = some w := by
  induction l with
  | nil => simp at hmem
  | cons x xs ih =>
      by_cases hx : x.name = w.name
      · have hxw : x = w := by
          have h1 := hall x (List.mem_cons_self x xs)
          rw [hx, hw] at h1
          exact (Option.some.inj h1).symm
        rw [List.find?_cons_of_pos _ (by simp [hx])]
        rw [hxw]
      · rw [List.find?_cons_of_neg _ (by simp [hx])]
        refine ih (fun it hit => hall it (List.mem_cons_of_mem x hit)) ?_
        rcases (by simpa using hmem : w.name = x.name ∨ ∃ a ∈ xs, a.name = w.name) with h1 | h1
        · exact absurd h1.symm hx
        · simpa using h1

theorem catalog_name_ne_empty (it : Item)
    (h : create_item_from_name it.name = some it) : it.name ≠ "" := by
  intro he
  rw [he] at h
  exact Option.noConfusion h

theorem from_dict_scalars (d : SaveDoc) :
    (Player.from_dict d).hp = d.hp ∧
    (Player.from_dict d).max_hp = d.max_hp ∧
    (Player.from_dict d).stamina = d.stamina ∧
    (Player.from_dict d).max_stamina = d.max_stamina ∧
    (Player.from_dict d).mana = d.mana ∧
    (Player.from_dict d).max_mana = d.max_mana ∧
    (Player.from_dict d).xp = d.xp ∧
    (Player.from_dict d).level = d.level ∧
    (Player.from_dict d).location = d.location ∧
    (Player.from_dict d).inventory = d.inventory.filterMap create_item_from_name := by
  refine ⟨?_, ?_, ?_, ?_, ?_, ?_, ?_, ?_, ?_, ?_⟩ <;>
    (unfold Player.from_dict
     dsimp only
     repeat first
       | rfl
       | simp only [equip_item_hp, equip_item_max_hp, equip_item_stamina,
           equip_item_max_stamina, equip_item_mana, equip_item_max_mana,
           equip_item_xp, equip_item_level, equip_item_location, equip_inventory]
       | split)

theorem from_dict_equips (p : Player)
    (hinv : ∀ it ∈ p.inventory, create_item_from_name it.name = some it)
    (hw : match p.weapon with
      | some w => create_item_from_name w.name = some w ∧ w.isWeapon = true ∧
          w.name ∈ p.inventory.map Item.name
      | none => True)
    (ha : match p.armor with
      | some a => create_item_from_name a.name = some a ∧ a.isArmor = true ∧
          a.name ∈ p.inventory.map Item.name
      | none => True) :
    (Player.from_dict p.to_dict).weapon = p.weapon ∧
    (Player.from_dict p.to_dict).armor = p.armor ∧
    (Player.from_dict p.to_dict).attack = 10 + p.level * 5 + equipped_weapon_bonus p ∧
    (Player.from_dict p.to_dict).defense = 3 + p.level * 2 + equipped_armor_bonus p := by
  have hfm := filterMap_catalog_roundtrip p.inventory hinv
  cases hpw : p.weapon with
  | none =>
      cases hpa : p.armor with
      | none =>
          simp [Player.from_dict, Player.to_dict, Player.init, hpw, hpa, truthyName,
            hfm, equipped_weapon_bonus, equipped_armor_bonus]
      | some a =>
          rw [hpa] at ha
          obtain ⟨hacat, hakind, hamem⟩ := ha
          obtain ⟨bA, hkA⟩ : ∃ b, a.kind = .armor b := by
            rcases hkk : a.kind with _ | ⟨e, am⟩ | b | b
            · simp [Item.isArmor, hkk] at hakind
            · simp [Item.isArmor, hkk] at hakind
            · simp [Item.isArmor, hkk] at hakind
            · exact ⟨b, rfl⟩
          have hane := catalog_name_ne_empty a hacat
          have ha_truthy : truthyName (some a.name) = true := by simp [truthyName, hane]
          have hfa := find_catalog_by_name p.inventory a hinv hacat hamem
          simp [Player.from_dict, Player.to_dict, Player.init, hpw, hpa, truthyName,
            hfm, hfa, hane, equip_inventory, equip_armor_weapon, equip_armor_armor,
            equip_armor_attack, equip_armor_defense, hkA,
            equipped_weapon_bonus, equipped_armor_bonus, Item.defense_bonus]
  | some w =>
      rw [hpw] at hw
      obtain ⟨hwcat, hwkind, hwmem⟩ := hw
      obtain ⟨bW, hkW⟩ : ∃ b, w.kind = .weapon b := by
        rcases hkk : w.kind with _ | ⟨e, am⟩ | b | b
        · simp [Item.isWeapon, hkk] at hwkind
        · simp [Item.isWeapon, hkk] at hwkind
        · exact ⟨b, rfl⟩
        · simp [Item.isWeapon, hkk] at hwkind
      have hwne := catalog_name_ne_empty w hwcat
      have hfw := find_catalog_by_name p.inventory w hinv hwcat hwmem
      cases hpa : p.armor with
      | none =>
          simp [Player.from_dict, Player.to_dict, Player.init, hpw, hpa, truthyName,
            hfm, hfw, hwne, equip_inventory, equip_weapon_weapon, equip_weapon_armor,
            equip_weapon_attack, equip_weapon_defense, hkW,
            equipped_weapon_bonus, equipped_armor_bonus, Item.attack_bonus]
      | some a =>
          rw [hpa] at ha
          obtain ⟨hacat, hakind, hamem⟩ := ha
          obtain ⟨bA, hkA⟩ : ∃ b, a.kind = .armor b := by
            rcases hkk : a.kind with _ | ⟨e, am⟩ | b | b
            · simp [Item.isArmor, hkk] at hakind
            · simp [Item.isArmor, hkk] at hakind
            · simp [Item.isArmor, hkk] at hakind
            · exact ⟨b, rfl⟩
          have hane := catalog_name_ne_empty a hacat
          have hfa := find_catalog_by_name p.inventory a hinv hacat hamem
          simp [Player.from_dict, Player.to_dict, Player.init, hpw, hpa, truthyName,
            hfm, hfw, hfa, hwne, hane, equip_inventory,
            equip_weapon_weapon, equip_weapon_armor, equip_weapon_attack, equip_weapon_defense,
            equip_armor_weapon, equip_armor_armor, equip_armor_attack, equip_armor_defense,
            hkW, hkA, equipped_weapon_bonus, equipped_armor_bonus,
            Item.attack_bonus, Item.defense_bonus]

theorem show_location_player (g : GameState) (er : ℚ) (pick : Nat) :
    (show_location g er pick).player = g.player := by
  unfold show_location start_combat
  dsimp only
  split
  · split <;> rfl
  · rfl

/-- Helper for C5: `advance_stage` preserves the stage invariant. -/
theorem Quest.advance_stage_wf (q : Quest) (h : QuestWF q) : QuestWF (q.advance_stage).1 := by
  obtain ⟨hlt, hc⟩ := h
  rcases Nat.lt_or_ge q.current_stage (q.stages.length - 1) with hlt' | hge
  · rw [Quest.advance_stage, if_pos hlt']
    refine ⟨by dsimp only; omega, ?_⟩
    dsimp only
    intro hcomp
    have := hc hcomp
    omega
  · rw [Quest.advance_stage, if_neg (by omega)]
    refine ⟨by dsimp only; omega, ?_⟩
    dsimp only
    intro _
    omega

/-! ## The claims -/

/-- Claim C1 counterexample: the new-game player — a reachable state whose
equipped items are not in the inventory — round-trips to attack 15 and
defense 5 instead of 25/10: the stored weapon/armor names match nothing in
the stored inventory, so on load the bonuses are lost and the slots stay
empty. -/
theorem counterexample_C1 :
    new_game.attack = 25 ∧ new_game.defense = 10 ∧
    (Player.from_dict new_game.to_dict).attack = 15 ∧
    (Player.from_dict new_game.to_dict).defense = 5 ∧
    (Player.from_dict new_game.to_dict).attack ≠ new_game.attack ∧
    (Player.from_dict new_game.to_dict).weapon = none ∧
    new_game.weapon.map Item.name = some "Iron Sword" := by
  decide

/-- Claim C1 as amended: for every player whose inventory items coincide
with their catalog definitions, whose equipped weapon/armor (if any) are
catalog equipment whose names occur among the inventory names, and whose
attack/defense equal the level-derived bases plus the equipped bonuses,
the save/load round trip reproduces the stored scalars exactly, the
inventory names in order, and the effective attack and defense.  (The
unrestricted claim fails on the new-game player, whose equipped items are
absent from the inventory — see the counterexample.) -/
theorem spec_C1 (p : Player)
    (hinv : ∀ it ∈ p.inventory, create_item_from_name it.name = some it)
    (hw : match p.weapon with
      | some w => create_item_from_name w.name = some w ∧ w.isWeapon = true ∧
          w.name ∈ p.inventory.map Item.name
      | none => True)
    (ha : match p.armor with
      | some a => create_item_from_name a.name = some a ∧ a.isArmor = true ∧
          a.name ∈ p.inventory.map Item.name
      | none => True)
    (hatk : p.attack = 10 + p.level * 5 + equipped_weapon_bonus p)
    (hdef : p.defense = 3 + p.level * 2 + equipped_armor_bonus p) :
    (Player.from_dict p.to_dict).hp = p.hp ∧
    (Player.from_dict p.to_dict).max_hp = p.max_hp ∧
    (Player.from_dict p.to_dict).stamina = p.stamina ∧
    (Player.from_dict p.to_dict).max_stamina = p.max_stamina ∧
    (Player.from_dict p.to_dict).mana = p.mana ∧
    (Player.from_dict p.to_dict).max_mana = p.max_mana ∧
    (Player.from_dict p.to_dict).xp = p.xp ∧
    (Player.from_dict p.to_dict).level = p.level ∧
    (Player.from_dict p.to_dict).location = p.location ∧
    (Player.from_dict p.to_dict).inventory.map Item.name = p.inventory.map Item.name ∧
    (Player.from_dict p.to_dict).attack = p.attack ∧
    (Player.from_dict p.to_dict).defense = p.defense := by
  have hs := from_dict_scalars p.to_dict
  have he := from_dict_equips p hinv hw ha
  refine ⟨hs.1, hs.2.1, hs.2.2.1, hs.2.2.2.1, hs.2.2.2.2.1, hs.2.2.2.2.2.1,
    hs.2.2.2.2.2.2.1, hs.2.2.2.2.2.2.2.1, hs.2.2.2.2.2.2.2.2.1, ?_, ?_, ?_⟩
  · rw [hs.2.2.2.2.2.2.2.2.2]
    rw [show p.to_dict.inventory = p.inventory.map Item.name from rfl,
      filterMap_catalog_roundtrip p.inventory hinv]
  · rw [hatk]
    exact he.2.2.1
  · rw [hdef]
    exact he.2.2.2

/-- Claim C1 witness: the amended round trip applied to the round-trip-safe
player (equipment present in the inventory); it reproduces hp, the
inventory names and the effective attack/defense. -/
theorem spec_C1_witness :
    (∀ it ∈ wf_player_example.inventory, create_item_from_name it.name = some it) ∧
    wf_player_example.attack
      = 10 + wf_player_example.level * 5 + equipped_weapon_bonus wf_player_example ∧
    (Player.from_dict wf_player_example.to_dict).attack = wf_player_example.attack ∧
    (Player.from_dict wf_player_example.to_dict).defense = wf_player_example.defense ∧
    (Player.from_dict wf_player_example.to_dict).inventory.map Item.name
      = wf_player_example.inventory.map Item.name ∧
    (Player.from_dict wf_player_example.to_dict).hp = wf_player_example.hp := by
  have h := spec_C1 wf_player_example (by decide)
    (by exact ⟨by decide, by decide, by decide⟩)
    (by exact ⟨by decide, by decide, by decide⟩)
    (by decide) (by decide)
  exact ⟨by decide, by decide, h.2.2.2.2.2.2.2.2.2.2.1, h.2.2.2.2.2.2.2.2.2.2.2,
    h.2.2.2.2.2.2.2.2.2.1, h.1⟩

/-- Claim C2: `take_damage` halves the amount (floor) when defending and the
defending flag is always false afterwards; net damage is
`max 0 (halved-or-raw - defense)`; hp drops by the net damage, floored at 0;
the net damage is returned; no other field changes; and amount 10 against
defense 3 while defending deals exactly 2. -/
theorem spec_C2 : ∀ (e : Entity) (d : Int),
    (e.take_damage d).2 =
        max 0 ((if e.is_defending then max 0 (Int.fdiv d 2) else d) - e.defense) ∧
    (e.take_damage d).1.hp = max 0 (e.hp - (e.take_damage d).2) ∧
    0 ≤ (e.take_damage d).1.hp ∧
    (e.take_damage d).1.is_defending = false ∧
    (e.take_damage d).1.name = e.name ∧
    (e.take_damage d).1.max_hp = e.max_hp ∧
    (e.take_damage d).1.max_stamina = e.max_stamina ∧
    (e.take_damage d).1.stamina = e.stamina ∧
    (e.take_damage d).1.attack = e.attack ∧
    (e.take_damage d).1.defense = e.defense ∧
    (({ Entity.init "Dummy" 50 20 0 3 with is_defending := true }.take_damage 10).2 = 2) := by
  intro e d
  have h2 : (e.take_damage d).1.hp = max 0 (e.hp - (e.take_damage d).2) := by
    dsimp only [Entity.take_damage, take_damage_calc]
    split_ifs <;> omega
  have h3 : 0 ≤ (e.take_damage d).1.hp := by
    dsimp only [Entity.take_damage, take_damage_calc]
    split_ifs <;> omega
  exact ⟨rfl, h2, h3, rfl, rfl, rfl, rfl, rfl, rfl, rfl, by decide⟩

/-- Claim C3: `gain_xp` adds the amount to xp and performs at most one
level-up per call — exactly one when the resulting xp reaches
`level * 100` — and the level-up bumps level, zeroes xp, grows and refills
the three resource maxima, and adds 5 attack / 2 defense. -/
theorem spec_C3 : ∀ (p : Player) (amount : Int),
    (p.gain_xp amount).level ≤ p.level + 1 ∧
    (p.xp + amount < p.level * 100 →
      p.gain_xp amount = { p with xp := p.xp + amount }) ∧
    (p.xp + amount ≥ p.level * 100 →
      (p.gain_xp amount).level = p.level + 1 ∧
      (p.gain_xp amount).xp = 0 ∧
      (p.gain_xp amount).max_hp = p.max_hp + 20 ∧
      (p.gain_xp amount).hp = p.max_hp + 20 ∧
      (p.gain_xp amount).max_stamina = p.max_stamina + 10 ∧
      (p.gain_xp amount).stamina = p.max_stamina + 10 ∧
      (p.gain_xp amount).max_mana = p.max_mana + 10 ∧
      (p.gain_xp amount).mana = p.max_mana + 10 ∧
      (p.gain_xp amount).attack = p.attack + 5 ∧
      (p.gain_xp amount).defense = p.defense + 2) := by
  intro p amount
  refine ⟨?_, ?_, ?_⟩
  · dsimp only [Player.gain_xp, Player.level_up]
    split <;> dsimp only <;> omega
  · intro h
    dsimp only [Player.gain_xp]
    rw [if_neg (by omega)]
  · intro h
    dsimp only [Player.gain_xp]
    rw [if_pos (by omega)]
    exact ⟨rfl, rfl, rfl, rfl, rfl, rfl, rfl, rfl, rfl, rfl⟩

/-- Claim C3 witness: a 1000-xp award from the fresh start crosses the
level-1 threshold and produces exactly one level-up. -/
theorem spec_C3_witness :
    new_game.xp + 1000 ≥ new_game.level * 100 ∧
    (new_game.gain_xp 1000).level = new_game.level + 1 ∧
    (new_game.gain_xp 1000).xp = 0 ∧
    (new_game.gain_xp 1000).level ≤ new_game.level + 1 := by
  have h := spec_C3 new_game 1000
  have hge : new_game.xp + 1000 ≥ new_game.level * 100 := by decide
  exact ⟨hge, (h.2.2 hge).1, (h.2.2 hge).2.1, h.1⟩

/-- Claim C4 counterexample: the new-game player already has the Iron Sword
equipped (attack 25); equipping the Greatsword and then unequipping it via
the drop flow leaves attack 15, not 25 — "equip then unequip leaves attack
unchanged" fails when a weapon was previously equipped. -/
theorem counterexample_C4 :
    create_item_from_name "Greatsword" = some greatsword_item ∧
    new_game.weapon.map Item.name = some "Iron Sword" ∧
    new_game.attack = 25 ∧
    (drop_action (new_game.equip_item greatsword_item) greatsword_item).attack = 15 ∧
    (drop_action (new_game.equip_item greatsword_item) greatsword_item).attack ≠
      new_game.attack := by
  decide

/-- Claim C4 as amended: the equip/unequip round trip leaves attack
unchanged when no weapon was previously equipped (otherwise the previous
weapon's bonus is lost, see the counterexample); equipping A then B always
lands on the pre-equip base (attack minus the currently equipped bonus)
plus only B's bonus; both symmetrically for armor/defense; and equipping
never changes the inventory. -/
theorem spec_C4 :
    (∀ (p : Player) (w : Item), p.weapon = none → w.isWeapon = true →
      (drop_action (p.equip_item w) w).attack = p.attack ∧
      (drop_action (p.equip_item w) w).weapon = none) ∧
    (∀ (p : Player) (A B : Item), A.isWeapon = true → B.isWeapon = true →
      ((p.equip_item A).equip_item B).attack
        = p.attack - equipped_weapon_bonus p + B.attack_bonus ∧
      ((p.equip_item A).equip_item B).weapon = some B) ∧
    (∀ (p : Player) (a : Item), p.armor = none → a.isArmor = true →
      (drop_action (p.equip_item a) a).defense = p.defense ∧
      (drop_action (p.equip_item a) a).armor = none) ∧
    (∀ (p : Player) (A B : Item), A.isArmor = true → B.isArmor = true →
      ((p.equip_item A).equip_item B).defense
        = p.defense - equipped_armor_bonus p + B.defense_bonus ∧
      ((p.equip_item A).equip_item B).armor = some B) ∧
    (∀ (p : Player) (it : Item), (p.equip_item it).inventory = p.inventory) := by
  refine ⟨?_, ?_, ?_, ?_, equip_inventory⟩
  · intro p w h hw
    obtain ⟨b, hk⟩ : ∃ b, w.kind = .weapon b := by
      rcases hkk : w.kind with _ | ⟨e, a⟩ | b | b
      · simp [Item.isWeapon, hkk] at hw
      · simp [Item.isWeapon, hkk] at hw
      · exact ⟨b, rfl⟩
      · simp [Item.isWeapon, hkk] at hw
    constructor
    · rw [drop_action_attack, equip_weapon_weapon p w b hk, if_pos rfl,
        equip_weapon_attack p w b hk]
      simp [equipped_weapon_bonus, h, Item.attack_bonus, hk]
    · rw [drop_action_weapon, equip_weapon_weapon p w b hk, if_pos rfl]
  · intro p A B hA hB
    obtain ⟨bA, hkA⟩ : ∃ b, A.kind = .weapon b := by
      rcases hkk : A.kind with _ | ⟨e, a⟩ | b | b
      · simp [Item.isWeapon, hkk] at hA
      · simp [Item.isWeapon, hkk] at hA
      · exact ⟨b, rfl⟩
      · simp [Item.isWeapon, hkk] at hA
    obtain ⟨bB, hkB⟩ : ∃ b, B.kind = .weapon b := by
      rcases hkk : B.kind with _ | ⟨e, a⟩ | b | b
      · simp [Item.isWeapon, hkk] at hB
      · simp [Item.isWeapon, hkk] at hB
      · exact ⟨b, rfl⟩
      · simp [Item.isWeapon, hkk] at hB
    constructor
    · rw [equip_weapon_attack _ B bB hkB, equip_weapon_attack p A bA hkA]
      simp [equipped_weapon_bonus, equip_weapon_weapon p A bA hkA,
        Item.attack_bonus, hkA, hkB]
    · exact equip_weapon_weapon _ B bB hkB
  · intro p a h ha
    obtain ⟨b, hk⟩ : ∃ b, a.kind = .armor b := by
      rcases hkk : a.kind with _ | ⟨e, am⟩ | b | b
      · simp [Item.isArmor, hkk] at ha
      · simp [Item.isArmor, hkk] at ha
      · simp [Item.isArmor, hkk] at ha
      · exact ⟨b, rfl⟩
    constructor
    · rw [drop_action_defense, equip_armor_armor p a b hk, if_pos rfl,
        equip_armor_defense p a b hk]
      simp [equipped_armor_bonus, h, Item.defense_bonus, hk]
    · rw [drop_action_armor, equip_armor_armor p a b hk, if_pos rfl]
  · intro p A B hA hB
    obtain ⟨bA, hkA⟩ : ∃ b, A.kind = .armor b := by
      rcases hkk : A.kind with _ | ⟨e, am⟩ | b | b
      · simp [Item.isArmor, hkk] at hA
      · simp [Item.isArmor, hkk] at hA
      · simp [Item.isArmor, hkk] at hA
      · exact ⟨b, rfl⟩
    obtain ⟨bB, hkB⟩ : ∃ b, B.kind = .armor b := by
      rcases hkk : B.kind with _ | ⟨e, am⟩ | b | b
      · simp [Item.isArmor, hkk] at hB
      · simp [Item.isArmor, hkk] at hB
      · simp [Item.isArmor, hkk] at hB
      · exact ⟨b, rfl⟩
    constructor
    · rw [equip_armor_defense _ B bB hkB, equip_armor_defense p A bA hkA]
      simp [equipped_armor_bonus, equip_armor_armor p A bA hkA,
        Item.defense_bonus, hkA, hkB]
    · exact equip_armor_armor _ B bB hkB

/-- Claim C4 witness: the amended round-trip and replacement laws applied to
a fresh unequipped player with the Greatsword and Steel Armor. -/
theorem spec_C4_witness :
    (Player.init "Hero" 100 50 15 5).weapon = none ∧
    greatsword_item.isWeapon = true ∧
    steel_armor_item.isArmor = true ∧
    (drop_action ((Player.init "Hero" 100 50 15 5).equip_item greatsword_item)
      greatsword_item).attack = (Player.init "Hero" 100 50 15 5).attack ∧
    (((Player.init "Hero" 100 50 15 5).equip_item greatsword_item).equip_item
      greatsword_item).weapon = some greatsword_item ∧
    (drop_action ((Player.init "Hero" 100 50 15 5).equip_item steel_armor_item)
      steel_armor_item).defense = (Player.init "Hero" 100 50 15 5).defense ∧
    ((Player.init "Hero" 100 50 15 5).equip_item greatsword_item).inventory
      = (Player.init "Hero" 100 50 15 5).inventory := by
  have h := spec_C4
  exact ⟨rfl, rfl, rfl,
    (h.1 _ greatsword_item rfl rfl).1,
    (h.2.1 _ greatsword_item greatsword_item rfl rfl).2,
    (h.2.2.1 _ steel_armor_item rfl rfl).1,
    h.2.2.2.2 _ greatsword_item⟩

/-- Claim C5: `current_stage` is always a valid index and a completed quest
sits at the last valid index — the invariant holds at creation, is
preserved by `advance_stage` and by the quest-progress check, and
completion lands exactly on the last index; concretely, the two-stage
"Slay the Dragon" quest moves 0 → 1 (not completed) on the matching
`find_item` event and completes at index 1 on the matching `kill_enemy`
event. -/
theorem spec_C5 :
    (∀ (name description reward : String) (stages : List Stage), stages ≠ [] →
      QuestWF (Quest.init name description stages reward)) ∧
    (∀ q : Quest, QuestWF q → QuestWF (q.advance_stage).1) ∧
    (∀ (q : Quest) (inv : List Item) (d : Option String),
      QuestWF q → QuestWF (quest_progress_step inv d q)) ∧
    (∀ q : Quest, QuestWF q → (q.advance_stage).1.completed = true →
      (q.advance_stage).1.current_stage = q.stages.length - 1) ∧
    (let amulet_inv := (create_item_from_name "Amulet of the Forest").toList
     let q1 := quest_progress_step amulet_inv none slay_the_dragon
     q1.current_stage = 1 ∧ q1.completed = false ∧
     (quest_progress_step [] (some "Dragon") q1).completed = true ∧
     (quest_progress_step [] (some "Dragon") q1).current_stage = 1) := by
  refine ⟨?_, Quest.advance_stage_wf, ?_, ?_, by decide⟩
  · intro name description reward stages hne
    refine ⟨?_, fun hcomp => by simp [Quest.init] at hcomp⟩
    simpa [Quest.init, List.length_pos] using hne
  · intro q inv d h
    dsimp only [quest_progress_step]
    split
    · exact h
    · split
      · exact h
      · split
        · exact Quest.advance_stage_wf q h
        · exact h
  · intro q h
    obtain ⟨hlt, hc⟩ := h
    rcases Nat.lt_or_ge q.current_stage (q.stages.length - 1) with hlt' | hge
    · rw [Quest.advance_stage, if_pos hlt']
      dsimp only
      intro hcomp
      have := hc hcomp
      omega
    · rw [Quest.advance_stage, if_neg (by omega)]
      dsimp only
      intro _
      omega

/-- Claim C5 witness: the invariant-preservation parts applied to the
concrete "Slay the Dragon" quest. -/
theorem spec_C5_witness :
    QuestWF slay_the_dragon ∧
    QuestWF (slay_the_dragon.advance_stage).1 ∧
    QuestWF (quest_progress_step [] (some "Dragon") slay_the_dragon) := by
  have h := spec_C5
  exact ⟨by decide, h.2.1 slay_the_dragon (by decide),
    h.2.2.1 slay_the_dragon [] (some "Dragon") (by decide)⟩

/-- Claim C6 counterexample: in the forest with a Goblin, a successful flee
(roll 1/4 < 1/2) re-runs `show_location`, whose encounter roll 1/4 < 3/5
immediately starts a fresh Goblin encounter — a new encounter IS rolled on
the same call, contrary to the claim. -/
theorem counterexample_C6 :
    (1/4 : ℚ) < 1/2 ∧
    (flee forest_combat_state (1/4) (1/4) 0).2 = false ∧
    (flee forest_combat_state (1/4) (1/4) 0).1.current_enemy = enemy_template "Goblin" ∧
    enemy_template "Goblin" ≠ none := by
  have h12 : (1/4 : ℚ) < 1/2 := by norm_num
  refine ⟨h12, ?_, ?_, by decide⟩
  · unfold flee
    rw [if_pos h12]
  · unfold flee
    rw [if_pos h12]
    unfold show_location
    dsimp only
    rw [if_pos ⟨by decide, by norm_num⟩]
    rfl

/-- Claim C6 as amended: a flee attempt resolves to exactly one of the two
outcomes, decided by the roll — success ends the current combat with no
enemy turn and re-displays the location (where a fresh encounter may be
rolled under the usual 0.6 rule, see the counterexample); failure leaves
the encounter in place and the enemy takes its turn (which may defeat the
player). -/
theorem spec_C6 (g : GameState) (e : Enemy) (h : g.current_enemy = some e)
    (r er : ℚ) (pick : Nat) :
    ((flee g r er pick).2 = false ↔ r < 1/2) ∧
    (r < 1/2 →
      (flee g r er pick).1 = show_location { g with current_enemy := none } er pick ∧
      (flee g r er pick).1.player = g.player) ∧
    (¬ r < 1/2 →
      (flee g r er pick).2 = true ∧
      (flee g r er pick).1.current_enemy = some e ∧
      (flee g r er pick).1.player = (g.player.take_damage e.attack).1) := by
  refine ⟨?_, ?_, ?_⟩
  · unfold flee
    by_cases hr : r < 1/2
    · rw [if_pos hr]
      simpa using hr
    · rw [if_neg hr]
      simpa using hr
  · intro hr
    unfold flee
    rw [if_pos hr]
    exact ⟨rfl, show_location_player _ er pick⟩
  · intro hr
    unfold flee
    rw [if_neg hr]
    refine ⟨rfl, ?_, ?_⟩ <;> simp [enemy_turn, h]

/-- Claim C6 witness: both flee outcomes exercised on the forest Goblin
fight — roll 3/4 fails (enemy turn, encounter kept), roll 1/8 succeeds
(no enemy turn, player untouched). -/
theorem spec_C6_witness :
    forest_combat_state.current_enemy = some (Enemy.init "Goblin" 30 20 10 5 25) ∧
    (flee forest_combat_state (3/4) 0 0).2 = true ∧
    (flee forest_combat_state (3/4) 0 0).1.current_enemy
      = some (Enemy.init "Goblin" 30 20 10 5 25) ∧
    (flee forest_combat_state (1/8) (7/8) 0).2 = false ∧
    (flee forest_combat_state (1/8) (7/8) 0).1.player = forest_combat_state.player := by
  have h := spec_C6 forest_combat_state (Enemy.init "Goblin" 30 20 10 5 25) rfl
  refine ⟨rfl, ?_, ?_, ?_, ?_⟩
  · exact ((h (3/4) 0 0).2.2 (by norm_num)).1
  · exact ((h (3/4) 0 0).2.2 (by norm_num)).2.1
  · exact ((h (1/8) (7/8) 0).1).mpr (by norm_num)
  · exact ((h (1/8) (7/8) 0).2.1 (by norm_num)).2

/-- Claim C7 counterexample: choosing Magic with no spells indeed costs no
turn, but it produces NO notice at all (and opens an empty spell window) —
the claimed "nothing to use" notice does not exist for the Magic branch. -/
theorem counterexample_C7 :
    no_spell_player.spells = [] ∧
    (show_spell_selection no_spell_player).turn_ended = false ∧
    (show_spell_selection no_spell_player).log = [] ∧
    (show_spell_selection no_spell_player).offered = [] ∧
    (show_item_selection no_potion_player).log = ["You have no potions to use."] := by
  decide

/-- Claim C7 as amended: with no potions, Use Item logs the "no potions"
notice, ends no turn and offers nothing; with no spells, Magic likewise
ends no turn (the enemy does not act and the state is unchanged) but opens
an empty selection window with no notice; and any sub-action menu that
reports the turn not ended leaves the game state untouched. -/
theorem spec_C7 :
    (∀ p : Player, p.spells = [] →
      show_spell_selection p = { turn_ended := false, log := [], offered := [] }) ∧
    (∀ p : Player, p.inventory.filter Item.isPotion = [] →
      show_item_selection p =
        { turn_ended := false, log := ["You have no potions to use."], offered := [] }) ∧
    (∀ (g : GameState) (r : SubactionResult), r.turn_ended = false →
      perform_subaction_menu g r = g) := by
  refine ⟨?_, ?_, ?_⟩
  · intro p h
    simp [show_spell_selection, h]
  · intro p h
    simp [show_item_selection, h]
  · intro g r h
    simp [perform_subaction_menu, h]

/-- Claim C7 witness: the amended statement applied to the spell-less and
potion-less players in the forest Goblin fight. -/
theorem spec_C7_witness :
    no_spell_player.spells = [] ∧
    show_spell_selection no_spell_player
      = { turn_ended := false, log := [], offered := [] } ∧
    show_item_selection no_potion_player
      = { turn_ended := false, log := ["You have no potions to use."], offered := [] } ∧
    perform_subaction_menu forest_combat_state (show_spell_selection no_spell_player)
      = forest_combat_state := by
  have h := spec_C7
  exact ⟨rfl, h.1 no_spell_player rfl, h.2.1 no_potion_player rfl,
    h.2.2 forest_combat_state _ rfl⟩

/-- Claim C8 counterexample: loading a save document that merely lacks the
`hp` key does NOT fall back to the no-save state — the key lookup error
escapes `load_game` uncaught. -/
theorem counterexample_C8 :
    doc_missing_hp.hp = none ∧
    load_game (some doc_missing_hp) = .uncaughtKeyError ∧
    load_game (some doc_missing_hp) ≠ .noSaveFile := by
  refine ⟨rfl, rfl, ?_⟩
  intro h
  cases h

/-- Claim C8 as amended: a save document missing a required field makes
`load_game` raise an uncaught key-lookup error (no fallback runs); the
"no save available" fallback happens only when the save file itself is
absent; a complete document loads via `Player.from_dict`. -/
theorem spec_C8 :
    (∀ d : PartialSaveDoc, d.require = none → load_game (some d) = .uncaughtKeyError) ∧
    load_game none = .noSaveFile ∧
    (∀ (d : PartialSaveDoc) (sd : SaveDoc), d.require = some sd →
      load_game (some d) = .loaded (Player.from_dict sd)) := by
  refine ⟨?_, rfl, ?_⟩
  · intro d h
    simp [load_game, h]
  · intro d sd h
    simp [load_game, h]

/-- Claim C8 witness: the amended statement applied to the document missing
`hp` and to the absent-file case. -/
theorem spec_C8_witness :
    doc_missing_hp.require = none ∧
    load_game (some doc_missing_hp) = .uncaughtKeyError ∧
    load_game none = .noSaveFile := by
  have h := spec_C8
  exact ⟨rfl, h.1 doc_missing_hp rfl, h.2.1⟩

/-- Claim C9: the new game's fixed starting loadout — 100/50/30 hp, stamina
and mana all full, base attack 15 and base defense 5 (the equipped Iron
Sword and Leather Armor then add their bonuses on top, per `equip_item`),
exactly one Health Potion, Iron Sword and Leather Armor equipped, and the
Heal spell known. -/
theorem spec_C9 :
    new_game.max_hp = 100 ∧ new_game.hp = 100 ∧
    new_game.max_stamina = 50 ∧ new_game.stamina = 50 ∧
    new_game.max_mana = 30 ∧ new_game.mana = 30 ∧
    new_game.inventory.map Item.name = ["Health Potion"] ∧
    new_game.weapon = create_item_from_name "Iron Sword" ∧
    new_game.armor = create_item_from_name "Leather Armor" ∧
    new_game.spells.map Spell.name = ["Heal"] ∧
    new_game.attack = 15 + (create_item_from_name "Iron Sword").elim 0 Item.attack_bonus ∧
    new_game.defense = 5 + (create_item_from_name "Leather Armor").elim 0 Item.defense_bonus := by
  decide

/-- Claim C10: right after a new game the inventory holds exactly the one
Health Potion, while the equipped Iron Sword and Leather Armor are fresh
instances that were never added to the inventory. -/
theorem spec_C10 :
    new_game.inventory.map Item.name = ["Health Potion"] ∧
    new_game.weapon.map Item.name = some "Iron Sword" ∧
    new_game.armor.map Item.name = some "Leather Armor" ∧
    (∀ it ∈ new_game.inventory, new_game.weapon ≠ some it ∧ new_game.armor ≠ some it) ∧
    (∀ it ∈ new_game.inventory, it.name ≠ "Iron Sword" ∧ it.name ≠ "Leather Armor") := by
  decide
